import Mathlib

/-!
Verification development for the ResuAI semantic scoring core.

Shallow embedding of the semantic relevance engine
(`semantic_engine.py`, class `UniversitySemanticEngine`) and of the
enhanced assessment engine (`enhanced_assessment_engine.py`, class
`EnhancedUniversityAssessmentEngine`).

Modelling conventions:
* Python floats are modelled as exact rationals (`ℚ`); the one place the
  source takes a square root (L2 normalization of the degraded
  hash-derived vector) is modelled over `ℝ`.
* Embedding vectors are `List ℚ` (or `List ℝ` for the degraded path).
* The sentence-transformer model call `self.model.encode(...)` is an
  external library call; it is abstracted as an oracle
  `String → Option (List ℚ)` (`none` models the call raising, which the
  source catches and converts to `None`).
* Python dict-shaped records are modelled as structures whose string
  fields default to `""`; a missing dict key and a key mapped to the
  empty string are both modelled as `""`, matching the `.get(k, '')`
  access pattern used throughout the source.
* Mutable result-dict assignment in `assess_candidate_enhanced` is
  modelled by explicit state passing.
-/

namespace Resu

/-! ### Similarity Calculator

Source: `semantic_engine.py`, `calculate_semantic_similarity`
(lines 389-411).  The body computes `np.dot` inside a `try`, rescales by
`(dot + 1) / 2`, clamps to `[0, 1]`, and returns `0.0` if anything
raised (e.g. a `None` argument or mismatched shapes). -/

/-- Dot product of two 1-D vectors. -/
def dotList (a b : List ℚ) : ℚ :=
  (List.zipWith (· * ·) a b).sum

/-- Model of `np.dot` on the engine's arguments: it raises (here
`Except.error`) when either argument is `None` or when the two 1-D
shapes differ, and otherwise returns the dot product. -/
def npDot : Option (List ℚ) → Option (List ℚ) → Except String ℚ
  | some a, some b =>
      if a.length = b.length then .ok (dotList a b)
      else .error "shapes not aligned"
  | _, _ => .error "unsupported operand type"

/-- `UniversitySemanticEngine.calculate_semantic_similarity`: rescale the
dot product by `(dot + 1) / 2`, clamp to `[0, 1]`; any exception in the
dot-product computation is caught and yields `0.0`. -/
def calculate_semantic_similarity (a b : Option (List ℚ)) : ℚ :=
  match npDot a b with
  | .ok d => max 0 (min 1 ((d + 1) / 2))
  | .error _ => 0

/-! ### Weighted Blend / Enhanced Scorer arithmetic

Source: `enhanced_assessment_engine.py`,
`_calculate_semantic_assessment` (lines 161-228) and the
`semantic_weights` dict initialized in `__init__` (lines 37-42). -/

/-- The four semantic weights held in `self.semantic_weights`. -/
structure SemanticWeights where
  education_relevance : ℚ
  experience_relevance : ℚ
  training_relevance : ℚ
  overall_quality_bonus : ℚ

/-- `self.semantic_weights` as initialized in `__init__`. -/
def default_semantic_weights : SemanticWeights :=
  { education_relevance := 35/100
    experience_relevance := 45/100
    training_relevance := 15/100
    overall_quality_bonus := 5/100 }

/-- Python `round(x, 1)`. -/
def round1 (x : ℚ) : ℚ := ((round (x * 10) : ℤ) : ℚ) / 10

/-- Python `round(x, 3)`. -/
def round3 (x : ℚ) : ℚ := ((round (x * 1000) : ℤ) : ℚ) / 1000

/-- The dict returned by
`UniversitySemanticEngine.calculate_detailed_semantic_score`.  The
source returns plain dicts whose key sets differ between the success
shape and the error shapes; `error = none` marks the success shape, and
`similarity_threshold` / `model_used` are only populated on success. -/
structure SemanticDetails where
  overall_score : ℚ
  education_relevance : ℚ
  experience_relevance : ℚ
  training_relevance : ℚ
  similarity_threshold : ℚ := 3/10
  model_used : String := "all-MiniLM-L6-v2"
  error : Option String := none

/-- Value returned by `_calculate_semantic_assessment` on success (the
large display-only `breakdown` dict of rounded copies is not modelled). -/
structure SemAssess where
  final_score : ℚ

/-- The clamped 0-100 semantic score computed by
`_calculate_semantic_assessment` (variable `final_semantic_score`,
lines 186-198): weighted category sum, plus overall-quality bonus,
scaled to 0-100 and clamped by `max(0, min(100, ...))`. -/
def final_semantic_score (w : SemanticWeights)
    (edu exp train overall : ℚ) : ℚ :=
  let weighted_score :=
    edu * w.education_relevance +
    exp * w.experience_relevance +
    train * w.training_relevance
  let quality_bonus := overall * w.overall_quality_bonus
  max 0 (min 100 ((weighted_score + quality_bonus) * 100))

/-- `_calculate_semantic_assessment`: raises (here `Except.error`) when
the detailed-score dict carries an `'error'` key, otherwise returns the
blended score rounded to one decimal. -/
def calculate_semantic_assessment (w : SemanticWeights)
    (d : SemanticDetails) : Except String SemAssess :=
  match d.error with
  | some e => .error e
  | none =>
      .ok { final_score :=
              round1 (final_semantic_score w
                d.education_relevance d.experience_relevance
                d.training_relevance d.overall_score) }

/-! ### Enhanced assessment control flow

Source: `enhanced_assessment_engine.py`, `assess_candidate_enhanced`
(lines 62-159).  The semantic path is attempted when requested and
`is_available()`; an exception there records an error and (when the
traditional path is requested) sets the method to
`'traditional_fallback'`.  The traditional path is attempted
independently; on success, if no recommended score is set yet, it
becomes the recommendation and the method is set to `'traditional'`.
If no path produced a score the result is forced to `0` / `'failed'`.

The two fallible collaborators are passed in as `Except` values:
`sem` is the outcome of `_calculate_semantic_assessment` and `trad`
the outcome of `self.assess_candidate(...)` (its `final_score`), with
`Except.error` modelling a raised exception. -/

/-- Result dict of `assess_candidate_enhanced` (bookkeeping fields
`candidate_id`, `job_id`, timestamps, breakdown dicts and
`performance_metrics` are not modelled). -/
structure AssessResult where
  semantic_score : Option ℚ := none
  traditional_score : Option ℚ := none
  recommended_score : ℚ := 0
  assessment_method : String := "hybrid"
  errors : List String := []

/-- `EnhancedUniversityAssessmentEngine.assess_candidate_enhanced`. -/
def assess_candidate_enhanced
    (include_semantic include_traditional avail : Bool)
    (sem : Except String SemAssess) (trad : Except String ℚ) :
    AssessResult :=
  -- semantic path (lines 94-114)
  let s1 :
      Option ℚ × Option ℚ × String × List String :=
    if include_semantic && avail then
      match sem with
      | .ok s => (some s.final_score, some s.final_score, "semantic", [])
      | .error e =>
          (none, none,
           if include_traditional then "traditional_fallback" else "hybrid",
           ["Semantic assessment failed: " ++ e])
    else (none, none, "hybrid", [])
  let semScore := s1.1
  let rec1 := s1.2.1
  let method1 := s1.2.2.1
  let errs1 := s1.2.2.2
  -- traditional path (lines 116-139)
  let s2 : Option ℚ × Option ℚ × String × List String :=
    if include_traditional then
      match trad with
      | .ok t =>
          (some t,
           if rec1 = none then some t else rec1,
           if rec1 = none then "traditional" else method1,
           errs1)
      | .error e =>
          (none, rec1, method1,
           errs1 ++ ["Traditional assessment failed: " ++ e])
    else (none, rec1, method1, errs1)
  -- force a recommended score (lines 151-155)
  match s2.2.1 with
  | some r =>
      { semantic_score := semScore, traditional_score := s2.1,
        recommended_score := r, assessment_method := s2.2.2.1,
        errors := s2.2.2.2 }
  | none =>
      { semantic_score := semScore, traditional_score := s2.1,
        recommended_score := 0, assessment_method := "failed",
        errors := s2.2.2.2 ++ ["No assessment method succeeded"] }

/-! ### Batch assessment

Source: `enhanced_assessment_engine.py`, `batch_assess_candidates`
(lines 230-284).  Each candidate is assessed inside its own
`try`/`except`; a raise for one item appends a stub error result and
the loop continues.  The job-embedding pre-computation (lines 247-256)
only warms the cache and does not change any returned value, so it is
not modelled here. -/

/-- One loop iteration's fate: either `assess_candidate_enhanced` runs
on the item's collaborator outcomes, or the iteration body raises. -/
inductive BatchItem where
  | ok (sem : Except String SemAssess) (trad : Except String ℚ)
  | raises (msg : String)

/-- `EnhancedUniversityAssessmentEngine.batch_assess_candidates`
(traditional scoring is always requested by the loop body,
`include_traditional=True`). -/
def batch_assess_candidates (include_semantic avail : Bool)
    (items : List BatchItem) : List AssessResult :=
  items.map fun it =>
    match it with
    | .ok s t => assess_candidate_enhanced include_semantic true avail s t
    | .raises m =>
        { recommended_score := 0, assessment_method := "failed",
          errors := ["Assessment failed: " ++ m] }

/-! ### Engine availability

Source: `semantic_engine.py`, module-level import guard
(lines 16-22), `_initialize` of the model (lines 59-87) and
`is_available` (lines 89-91).  `is_available` returns the import flag
`SEMANTIC_DEPENDENCIES_AVAILABLE` only; whether a transformer model was
actually loaded (`self.model`) does not enter into it. -/

/-- The two independent pieces of engine state that availability could
conceivably depend on: the import flag and whether `self.model` is set. -/
structure EngineState where
  deps_available : Bool
  model_loaded : Bool

/-- `UniversitySemanticEngine.is_available`. -/
def is_available (s : EngineState) : Bool := s.deps_available

/-! ### Embedding Provider

Source: `semantic_engine.py`, `encode_text` (lines 132-184).  The
function has two disjoint branches selected by `is_available()`:

* degraded branch (lines 144-160): md5-digest bytes, padded or
  truncated to 384 entries, then divided by the L2 norm when that norm
  is positive;
* model branch (lines 162-184): cache lookup keyed by
  md5(text + context + model name), then `self.model.encode` on the
  text truncated to `max_sequence_length = 512`, with exceptions caught
  and turned into `None`.

The md5 cache key is modelled by the `(text, context)` pair itself (the
model name is a constant), and `self.model.encode` by an oracle
`String → Option (List ℚ)`.  Cache writes are state updates with no
effect on the value returned by the call that performs them, so they
are not modelled. -/

/-- Python `str.strip()`: drop leading and trailing whitespace
(defined on the character list so that it evaluates by reduction). -/
def strip (s : String) : String :=
  ⟨((s.data.dropWhile Char.isWhitespace).reverse.dropWhile
      Char.isWhitespace).reverse⟩

/-- Python slicing `s[:n]`: the first `n` characters. -/
def string_take (s : String) (n : ℕ) : String := ⟨s.data.take n⟩

/-- Python `sep.join(parts)`. -/
def join_sep (sep : String) : List String → String
  | [] => ""
  | [x] => x
  | x :: xs => x ++ sep ++ join_sep sep xs

/-- Embedding cache: md5 key modelled by the `(text, context)` pair. -/
def cache_lookup : List ((String × String) × List ℚ) → String × String →
    Option (List ℚ)
  | [], _ => none
  | (k, v) :: rest, key => if k = key then some v else cache_lookup rest key

/-- Truncation of the input text to `max_sequence_length = 512`
characters (lines 170-171). -/
def truncate_to_max (text : String) : String :=
  if text.length > 512 then string_take text 512 else text

/-- Model branch of `encode_text` (cache consultation plus the
truncated model call). -/
def encode_text_model (oracle : String → Option (List ℚ))
    (cand_cache : List ((String × String) × List ℚ))
    (text context : String) (use_cache : Bool) : Option (List ℚ) :=
  if use_cache then
    match cache_lookup cand_cache (text, context) with
    | some v => some v
    | none => oracle (truncate_to_max text)
  else oracle (truncate_to_max text)

/-- Lines 151-155: pad the 16 md5 digest bytes with zeros to 384
entries (or truncate if longer). -/
def pad_or_truncate_384 (bytes : List ℕ) : List ℕ :=
  if bytes.length < 384 then bytes ++ List.replicate (384 - bytes.length) 0
  else bytes.take 384

/-- Sum of squared entries (`np.linalg.norm(v) ** 2`). -/
def l2NormSq (v : List ℝ) : ℝ := (v.map fun x => x * x).sum

/-- `np.linalg.norm`: the Euclidean norm. -/
noncomputable def l2Norm (v : List ℝ) : ℝ := Real.sqrt (l2NormSq v)

/-- Lines 157-159: divide by the norm when it is positive. -/
noncomputable def l2Normalize (v : List ℝ) : List ℝ :=
  if 0 < l2Norm v then v.map (fun x => x / l2Norm v) else v

/-- Cast the `uint8` byte vector to floats (line 150). -/
def natsToReals (l : List ℕ) : List ℝ := l.map fun (b : ℕ) => (b : ℝ)

/-- Degraded branch of `encode_text` (lines 144-160), parameterized by
the md5 digest function `digest` (16 bytes, each in `0..255`, for the
real md5). -/
noncomputable def encode_text_degraded (digest : String → List ℕ)
    (text : String) : List ℝ :=
  l2Normalize (natsToReals (pad_or_truncate_384 (digest text)))

/-! ### Candidate and job data

Source: `semantic_engine.py`, `encode_job_requirements` (lines 186-240)
and `encode_candidate_profile` (lines 242-387).  Dict records are
modelled as structures; string fields default to `""`, standing for a
missing key exactly as the source's `.get(key, '')` does.  The source's
`isinstance(..., dict)` guards are vacuous here because entries are
well-typed records. -/

/-- One education record; covers both the PDS shape
(`educational_background`) and the converted shape (`education`). -/
structure EduRecord where
  level : String := ""
  degree_course : String := ""
  degree : String := ""
  school : String := ""
  honors : String := ""
  year_graduated : String := ""

/-- One work-experience record (PDS `work_experience` or converted
`experience`). -/
structure ExpRecord where
  position : String := ""
  company : String := ""
  description : String := ""
  salary : String := ""
  grade : String := ""
  date_from : String := ""
  date_to : String := ""

/-- One training record (PDS `learning_development` or converted
`training`); the Python key `'type'` is named `type_info` here after
the local variable the source reads it into. -/
structure TrainRecord where
  title : String := ""
  type_info : String := ""
  conductor : String := ""
  hours : String := ""

/-- One civil-service eligibility record.  `rating` models the
`float(rating)` parse inside the source's `try` (lines 356-360):
`some r` is a present, parseable rating and `none` covers a missing,
empty, or unparseable one. -/
structure EligRecord where
  eligibility : String := ""
  rating : Option ℚ := none

/-- `pds_data['personal_info']`. -/
structure PersonalInfo where
  citizenship : String := ""

/-- The candidate dict as read by the semantic engine. -/
structure Candidate where
  id : String := "unknown"
  educational_background : List EduRecord := []
  education : List EduRecord := []
  work_experience : List ExpRecord := []
  experience : List ExpRecord := []
  learning_development : List TrainRecord := []
  training : List TrainRecord := []
  civil_service_eligibility : List EligRecord := []
  personal_info : Option PersonalInfo := none

/-- The job dict as read by the semantic engine
(`job_data.get('id', 'unknown')`, remaining keys default `''`). -/
structure Job where
  id : String := "unknown"
  title : String := ""
  description : String := ""
  requirements : String := ""
  department : String := ""
  experience_level : String := ""

/-- Python `"{:.1f}".format q` for the nonnegative ratings displayed by
the profile formatter. -/
def fmt1 (q : ℚ) : String :=
  let n : ℤ := round (q * 10)
  toString (n / 10) ++ "." ++ toString ((n % 10).natAbs)

/-- Lines 209-221: the job text assembled by `encode_job_requirements`. -/
def job_text_parts (j : Job) : List String :=
  (if j.title ≠ "" then ["Job Title: " ++ j.title] else []) ++
  (if j.department ≠ "" then ["Department: " ++ j.department] else []) ++
  (if j.experience_level ≠ "" then
    ["Experience Level: " ++ j.experience_level] else []) ++
  (if j.description ≠ "" then ["Description: " ++ j.description] else []) ++
  (if j.requirements ≠ "" then ["Requirements: " ++ j.requirements] else [])

/-- `UniversitySemanticEngine.encode_job_requirements` (lines 186-240):
`None` when unavailable, otherwise the job-cache lookup followed by
`encode_text(job_text, "job_<id>", use_cache=False)`. -/
def encode_job_requirements (avail : Bool)
    (oracle : String → Option (List ℚ))
    (cand_cache job_cache : List ((String × String) × List ℚ))
    (j : Job) : Option (List ℚ) :=
  if !avail then none
  else
    let job_text := join_sep " | " (job_text_parts j)
    match cache_lookup job_cache (job_text, "job_" ++ j.id) with
    | some v => some v
    | none => encode_text_model oracle cand_cache job_text ("job_" ++ j.id) false

/-- Lines 261-287: the `Education:` profile parts. -/
def profile_education_parts (c : Candidate) : List String :=
  if c.educational_background.isEmpty then
    (c.education.take 4).filterMap fun e =>
      if e.degree ≠ "" ∨ e.school ≠ "" then
        some ("Education: " ++ e.level ++ " " ++ e.degree ++ " from " ++ e.school)
      else none
  else
    (c.educational_background.take 4).filterMap fun e =>
      let degree_course := if e.degree_course ≠ "" then e.degree_course else e.degree
      if degree_course ≠ "" ∨ e.school ≠ "" then
        some ("Education: " ++ e.level ++ " " ++ degree_course ++ " from " ++
          e.school ++
          (if e.honors ≠ "" ∧ e.honors ≠ "N/a" then " with " ++ e.honors else ""))
      else none

/-- Lines 289-318: the `Experience:` profile parts. -/
def profile_experience_parts (c : Candidate) : List String :=
  if c.work_experience.isEmpty then
    (c.experience.take 4).filterMap fun e =>
      if e.position ≠ "" ∨ e.company ≠ "" then
        some ("Experience: " ++ e.position ++ " at " ++ e.company ++
          (if e.description ≠ "" then " - " ++ string_take e.description 100 else ""))
      else none
  else
    (c.work_experience.take 4).filterMap fun e =>
      if e.position ≠ "" ∨ e.company ≠ "" then
        some ("Experience: " ++ e.position ++ " at " ++ e.company ++
          (if e.grade ≠ "" ∧ e.grade ≠ "N/A" then " (" ++ e.grade ++ ")" else ""))
      else none

/-- Lines 320-344: the `Training:` profile parts. -/
def profile_training_parts (c : Candidate) : List String :=
  if c.learning_development.isEmpty then
    (c.training.take 3).filterMap fun t =>
      if t.title ≠ "" then some ("Training: " ++ t.title) else none
  else
    (c.learning_development.take 3).filterMap fun t =>
      if t.title ≠ "" then
        some ("Training: " ++ t.title ++
          (if t.type_info ≠ "" ∧ t.type_info ≠ "N/a" then
            " (" ++ t.type_info ++ ")" else "") ++
          (if t.hours ≠ "" then " - " ++ t.hours ++ " hours" else ""))
      else none

/-- Lines 346-361: the `Eligibility:` profile parts. -/
def profile_eligibility_parts (c : Candidate) : List String :=
  (c.civil_service_eligibility.take 2).filterMap fun e =>
    if e.eligibility ≠ "" then
      some ("Eligibility: " ++ e.eligibility ++
        (match e.rating with
         | some r => " (Rating: " ++ fmt1 (r * 100) ++ "%)"
         | none => ""))
    else none

/-- Lines 363-371: the optional `Citizenship:` profile part. -/
def profile_citizenship_parts (c : Candidate) : List String :=
  match c.personal_info with
  | some pi =>
      if pi.citizenship ≠ "" ∧ pi.citizenship ≠ "N/a" ∧
         pi.citizenship ≠ "please indicate the details." then
        ["Citizenship: " ++ pi.citizenship]
      else []
  | none => []

/-- The full `profile_parts` list built by `encode_candidate_profile`. -/
def profile_parts (c : Candidate) : List String :=
  profile_education_parts c ++ profile_experience_parts c ++
  profile_training_parts c ++ profile_eligibility_parts c ++
  profile_citizenship_parts c

/-- `UniversitySemanticEngine.encode_candidate_profile`
(lines 242-387): `None` when unavailable; `None` when the assembled
profile text is blank (lines 376-378); otherwise
`encode_text(candidate_text, "candidate_<id>")` with the default
`use_cache=True`. -/
def encode_candidate_profile (avail : Bool)
    (oracle : String → Option (List ℚ))
    (cand_cache : List ((String × String) × List ℚ))
    (c : Candidate) : Option (List ℚ) :=
  if !avail then none
  else
    let candidate_text := join_sep " | " (profile_parts c)
    if strip candidate_text = "" then none
    else encode_text_model oracle cand_cache candidate_text
      ("candidate_" ++ c.id) true

/-! ### Category Relevance Scorer

Source: `semantic_engine.py`, `_calculate_education_relevance`
(lines 512-568), `_calculate_experience_relevance` (lines 570-627) and
`_calculate_training_relevance` (lines 629-687).  Each formats the
candidate's category records, embeds both the candidate text and a
job text through `encode_text` (default `use_cache=True`), and returns
the similarity; a `None` embedding, an empty text list, or an exception
yields `0.0`. -/

/-- Education texts assembled by `_calculate_education_relevance`. -/
def education_texts (c : Candidate) : List String :=
  if !c.educational_background.isEmpty then
    (c.educational_background.take 4).filterMap fun e =>
      let degree_course := if e.degree_course ≠ "" then e.degree_course else e.degree
      if degree_course ≠ "" ∨ e.school ≠ "" then
        some (e.level ++ " " ++ degree_course ++ " from " ++ e.school ++
          (if e.honors ≠ "" ∧ e.honors ≠ "N/a" then " with " ++ e.honors else "") ++
          (if e.year_graduated ≠ "" then
            " (graduated " ++ e.year_graduated ++ ")" else ""))
      else none
  else if !c.education.isEmpty then
    (c.education.take 4).filterMap fun e =>
      if e.degree ≠ "" ∨ e.school ≠ "" then
        some (strip (e.level ++ " " ++ e.degree ++ " from " ++ e.school))
      else none
  else []

/-- `UniversitySemanticEngine._calculate_education_relevance`. -/
def calc_education_relevance (oracle : String → Option (List ℚ))
    (cand_cache : List ((String × String) × List ℚ))
    (c : Candidate) (j : Job) : ℚ :=
  let texts := education_texts c
  if texts.isEmpty then 0
  else
    let job_text := j.title ++ " " ++ j.requirements
    let cand_text := join_sep " | " texts
    match encode_text_model oracle cand_cache cand_text "education" true,
          encode_text_model oracle cand_cache job_text "job_edu_comparison" true with
    | some a, some b => calculate_semantic_similarity (some a) (some b)
    | _, _ => 0

/-- Experience texts assembled by `_calculate_experience_relevance`. -/
def experience_texts (c : Candidate) : List String :=
  if !c.work_experience.isEmpty then
    (c.work_experience.take 4).filterMap fun e =>
      if e.position ≠ "" ∨ e.company ≠ "" then
        some (e.position ++ " at " ++ e.company ++
          (if e.grade ≠ "" ∧ e.grade ≠ "N/A" then
            " (Grade: " ++ e.grade ++ ")" else "") ++
          (if e.date_from ≠ "" ∨ e.date_to ≠ "" then
            " (" ++ e.date_from ++ " to " ++ e.date_to ++ ")" else ""))
      else none
  else if !c.experience.isEmpty then
    (c.experience.take 4).filterMap fun e =>
      if e.position ≠ "" ∨ e.description ≠ "" then
        some (strip (e.position ++ " - " ++ string_take e.description 100))
      else none
  else []

/-- `UniversitySemanticEngine._calculate_experience_relevance`. -/
def calc_experience_relevance (oracle : String → Option (List ℚ))
    (cand_cache : List ((String × String) × List ℚ))
    (c : Candidate) (j : Job) : ℚ :=
  let texts := experience_texts c
  if texts.isEmpty then 0
  else
    let job_text := j.title ++ " " ++ j.description ++ " " ++ j.requirements
    let cand_text := join_sep " | " texts
    match encode_text_model oracle cand_cache cand_text "experience" true,
          encode_text_model oracle cand_cache job_text "job_exp_comparison" true with
    | some a, some b => calculate_semantic_similarity (some a) (some b)
    | _, _ => 0

/-- Training texts assembled by `_calculate_training_relevance`. -/
def training_texts (c : Candidate) : List String :=
  if !c.learning_development.isEmpty then
    (c.learning_development.take 5).filterMap fun t =>
      if t.title ≠ "" then
        some (t.title ++
          (if t.type_info ≠ "" ∧ t.type_info ≠ "N/a" then
            " (" ++ t.type_info ++ ")" else "") ++
          (if t.conductor ≠ "" then " by " ++ t.conductor else "") ++
          (if t.hours ≠ "" then " - " ++ t.hours ++ " hours" else ""))
      else none
  else if !c.training.isEmpty then
    (c.training.take 5).filterMap fun t =>
      if t.title ≠ "" then
        some (t.title ++
          (if t.type_info ≠ "" then " (" ++ t.type_info ++ ")" else ""))
      else none
  else []

/-- `UniversitySemanticEngine._calculate_training_relevance`. -/
def calc_training_relevance (oracle : String → Option (List ℚ))
    (cand_cache : List ((String × String) × List ℚ))
    (c : Candidate) (j : Job) : ℚ :=
  let texts := training_texts c
  if texts.isEmpty then 0
  else
    let job_text := j.title ++ " " ++ j.description ++ " " ++ j.requirements
    let cand_text := join_sep " | " texts
    match encode_text_model oracle cand_cache cand_text "training" true,
          encode_text_model oracle cand_cache job_text "job_training_comparison" true with
    | some a, some b => calculate_semantic_similarity (some a) (some b)
    | _, _ => 0

/-! ### Detailed semantic score

Source: `semantic_engine.py`, `calculate_detailed_semantic_score`
(lines 451-510). -/

/-- The `'Failed to generate embeddings'` error dict (lines 476-483). -/
def failed_embeddings_details : SemanticDetails :=
  { overall_score := 0, education_relevance := 0,
    experience_relevance := 0, training_relevance := 0,
    error := some "Failed to generate embeddings" }

/-- `UniversitySemanticEngine.calculate_detailed_semantic_score`.  The
source computes the candidate and job embeddings and then tests
`if candidate_embedding is None or job_embedding is None`; the nested
match below checks them in the same order. -/
def calculate_detailed_semantic_score (avail : Bool)
    (oracle : String → Option (List ℚ))
    (cand_cache job_cache : List ((String × String) × List ℚ))
    (c : Candidate) (j : Job) : SemanticDetails :=
  if !avail then
    { overall_score := 0, education_relevance := 0,
      experience_relevance := 0, training_relevance := 0,
      error := some "Semantic engine not available" }
  else
    match encode_candidate_profile avail oracle cand_cache c with
    | none => failed_embeddings_details
    | some ce =>
        match encode_job_requirements avail oracle cand_cache job_cache j with
        | none => failed_embeddings_details
        | some je =>
            { overall_score :=
                round3 (calculate_semantic_similarity (some ce) (some je))
              education_relevance :=
                round3 (calc_education_relevance oracle cand_cache c j)
              experience_relevance :=
                round3 (calc_experience_relevance oracle cand_cache c j)
              training_relevance :=
                round3 (calc_training_relevance oracle cand_cache c j)
              similarity_threshold := 3/10
              model_used := "all-MiniLM-L6-v2"
              error := none }

/-! ### Weight reconfiguration

Source: `enhanced_assessment_engine.py`, `update_semantic_weights`
(lines 295-310).  `self.semantic_weights` is a Python dict; it is
modelled here as an association list without duplicate keys.  The
method raises `ValueError` at the first required key missing from the
supplied dict, logs a warning when the first three required weights sum
outside `[0.8, 1.2]`, and then merges the supplied dict into the
current one with `dict.update`. -/

/-- Dict lookup on an association list. -/
def weights_lookup : List (String × ℚ) → String → Option ℚ
  | [], _ => none
  | (k, v) :: rest, key => if k = key then some v else weights_lookup rest key

/-- `d[k] = v` on an association list: overwrite in place if the key is
present, otherwise append. -/
def dict_insert (d : List (String × ℚ)) (k : String) (v : ℚ) :
    List (String × ℚ) :=
  if (d.map Prod.fst).contains k then
    d.map fun p => if p.1 = k then (k, v) else p
  else d ++ [(k, v)]

/-- Python `current.update(new)`. -/
def dict_update (current new : List (String × ℚ)) : List (String × ℚ) :=
  new.foldl (fun acc p => dict_insert acc p.1 p.2) current

/-- The `required_keys` list of `update_semantic_weights` (line 298).
Note `'skills_relevance'`, which is not one of the weight keys the
scoring code reads. -/
def required_weight_keys : List String :=
  ["education_relevance", "experience_relevance", "skills_relevance",
   "overall_quality_bonus"]

/-- Lines 304-307: warn when the first three required weights sum
outside `[0.8, 1.2]`. -/
def weight_sum_warning (new : List (String × ℚ)) : Bool :=
  let total :=
    ((required_weight_keys.take 3).map fun k =>
      (weights_lookup new k).getD 0).sum
  decide (total < 4/5) || decide (total > 6/5)

/-- `self.semantic_weights` as a dict, as initialized in `__init__`. -/
def default_semantic_weights_dict : List (String × ℚ) :=
  [("education_relevance", 35/100), ("experience_relevance", 45/100),
   ("training_relevance", 15/100), ("overall_quality_bonus", 5/100)]

/-- `EnhancedUniversityAssessmentEngine.update_semantic_weights`:
`Except.error` models the `ValueError` raise; on success the returned
`Bool` records whether the out-of-band warning was logged, and the
returned dict is the merged `self.semantic_weights`. -/
def update_semantic_weights (current new : List (String × ℚ)) :
    Except String (List (String × ℚ) × Bool) :=
  match required_weight_keys.find? (fun k => (weights_lookup new k).isNone) with
  | some k => .error ("Missing required weight: " ++ k)
  | none => .ok (dict_update current new, weight_sum_warning new)

/-! ### Helper lemmas -/

theorem l2NormSq_nil : l2NormSq [] = 0 := rfl

theorem l2NormSq_cons (x : ℝ) (xs : List ℝ) :
    l2NormSq (x :: xs) = x * x + l2NormSq xs := rfl

theorem l2NormSq_nonneg (v : List ℝ) : 0 ≤ l2NormSq v := by
  induction v with
  | nil => simp [l2NormSq_nil]
  | cons y ys ih =>
      rw [l2NormSq_cons]
      exact add_nonneg (mul_self_nonneg y) ih

theorem l2NormSq_pos_of_mem (v : List ℝ) (x : ℝ) (hx : x ∈ v) (hx0 : x ≠ 0) :
    0 < l2NormSq v := by
  induction v with
  | nil => cases hx
  | cons y ys ih =>
      rw [l2NormSq_cons]
      rcases List.mem_cons.mp hx with h | h
      · exact add_pos_of_pos_of_nonneg (mul_self_pos.mpr (h ▸ hx0))
          (l2NormSq_nonneg ys)
      · exact add_pos_of_nonneg_of_pos (mul_self_nonneg y) (ih h)

theorem l2NormSq_map_div (v : List ℝ) (c : ℝ) :
    l2NormSq (v.map fun x => x / c) = l2NormSq v / (c * c) := by
  induction v with
  | nil => simp [l2NormSq_nil]
  | cons y ys ih =>
      rw [List.map_cons, l2NormSq_cons, l2NormSq_cons, ih,
        div_mul_div_comm, add_div]

theorem l2NormSq_l2Normalize (v : List ℝ) (h : 0 < l2NormSq v) :
    l2NormSq (l2Normalize v) = 1 := by
  have hn : 0 < l2Norm v := Real.sqrt_pos.mpr h
  unfold l2Normalize
  rw [if_pos hn, l2NormSq_map_div]
  have hs : l2Norm v * l2Norm v = l2NormSq v := Real.mul_self_sqrt h.le
  rw [hs]
  exact div_self h.ne'

theorem l2Normalize_length (v : List ℝ) :
    (l2Normalize v).length = v.length := by
  unfold l2Normalize
  split <;> simp

theorem pad_or_truncate_384_length (bytes : List ℕ) :
    (pad_or_truncate_384 bytes).length = 384 := by
  unfold pad_or_truncate_384
  split
  · rename_i h
    simp only [List.length_append, List.length_replicate]
    omega
  · rename_i h
    simp only [List.length_take]
    omega

theorem weights_lookup_eq_none_of_not_contains (d : List (String × ℚ))
    (k : String) (h : (d.map Prod.fst).contains k = false) :
    weights_lookup d k = none := by
  induction d with
  | nil => rfl
  | cons p t ih =>
      simp only [List.map_cons, List.contains_cons, Bool.or_eq_false_iff,
        beq_eq_false_iff_ne, ne_eq] at h
      rw [weights_lookup, if_neg (by exact fun hk => h.1 hk.symm)]
      exact ih h.2

theorem weights_lookup_append_right (d1 d2 : List (String × ℚ)) (k : String)
    (h : weights_lookup d1 k = none) :
    weights_lookup (d1 ++ d2) k = weights_lookup d2 k := by
  induction d1 with
  | nil => rfl
  | cons p t ih =>
      rw [weights_lookup] at h
      rcases hp : decide (p.1 = k) with _ | _
      · rw [List.cons_append, weights_lookup,
          if_neg (of_decide_eq_false hp)]
        rw [if_neg (of_decide_eq_false hp)] at h
        exact ih h
      · rw [if_pos (of_decide_eq_true hp)] at h
        cases h

theorem dict_insert_lookup_self (d : List (String × ℚ)) (k : String) (v : ℚ) :
    weights_lookup (dict_insert d k v) k = some v := by
  unfold dict_insert
  split
  · rename_i hc
    induction d with
    | nil => cases hc
    | cons p t ih =>
        simp only [List.map_cons, List.contains_cons, Bool.or_eq_true,
          beq_iff_eq] at hc
        by_cases hp : p.1 = k
        · rw [List.map_cons, if_pos hp, weights_lookup, if_pos rfl]
        · rw [List.map_cons, if_neg hp, weights_lookup, if_neg hp]
          rcases hc with hc | hc
          · exact absurd hc.symm hp
          · exact ih hc
  · rename_i hc
    rw [weights_lookup_append_right]
    · rw [weights_lookup, if_pos rfl]
    · exact weights_lookup_eq_none_of_not_contains d k
        (Bool.eq_false_iff.mpr hc)

theorem weights_lookup_map_overwrite_ne (t : List (String × ℚ))
    (k k1 : String) (v : ℚ) (h : k ≠ k1) :
    weights_lookup (t.map fun p => if p.1 = k1 then (k1, v) else p) k =
      weights_lookup t k := by
  induction t with
  | nil => rfl
  | cons p u ih =>
      rw [List.map_cons]
      by_cases hp : p.1 = k1
      · rw [if_pos hp, weights_lookup, weights_lookup,
          if_neg (fun hk => h hk.symm),
          if_neg (by rw [hp]; exact fun hk => h hk.symm)]
        exact ih
      · rw [if_neg hp, weights_lookup, weights_lookup]
        by_cases hpk : p.1 = k
        · rw [if_pos hpk, if_pos hpk]
        · rw [if_neg hpk, if_neg hpk]
          exact ih

theorem weights_lookup_append_single_ne (t : List (String × ℚ))
    (k k1 : String) (v : ℚ) (h : k ≠ k1) :
    weights_lookup (t ++ [(k1, v)]) k = weights_lookup t k := by
  induction t with
  | nil =>
      rw [List.nil_append]
      simp only [weights_lookup, ite_eq_right_iff]
      intro hk
      exact absurd hk.symm h
  | cons p u ih =>
      rw [List.cons_append, weights_lookup, weights_lookup]
      by_cases hpk : p.1 = k
      · rw [if_pos hpk, if_pos hpk]
      · rw [if_neg hpk, if_neg hpk]
        exact ih

theorem dict_insert_lookup_ne (d : List (String × ℚ)) (k k1 : String) (v : ℚ)
    (h : k ≠ k1) :
    weights_lookup (dict_insert d k1 v) k = weights_lookup d k := by
  unfold dict_insert
  split
  · exact weights_lookup_map_overwrite_ne d k k1 v h
  · exact weights_lookup_append_single_ne d k k1 v h

theorem dict_update_lookup_not_mem (d : List (String × ℚ))
    (t : List (String × ℚ)) (k : String) (h : k ∉ t.map Prod.fst) :
    weights_lookup (dict_update d t) k = weights_lookup d k := by
  induction t generalizing d with
  | nil => rfl
  | cons q u ih =>
      simp only [List.map_cons, List.mem_cons, not_or] at h
      rw [dict_update, List.foldl_cons]
      have step := ih (dict_insert d q.1 q.2) h.2
      rw [dict_update] at step
      rw [step, dict_insert_lookup_ne d k q.1 q.2 h.1]

theorem dict_update_lookup (current new : List (String × ℚ)) (k : String)
    (v : ℚ) (hnd : (new.map Prod.fst).Nodup)
    (h : weights_lookup new k = some v) :
    weights_lookup (dict_update current new) k = some v := by
  induction new generalizing current with
  | nil => cases h
  | cons p t ih =>
      obtain ⟨k0, v0⟩ := p
      rw [List.map_cons, List.nodup_cons] at hnd
      rw [dict_update, List.foldl_cons]
      rw [weights_lookup] at h
      by_cases hpk : k0 = k
      · subst hpk
        rw [if_pos rfl] at h
        have hv : v0 = v := Option.some.inj h
        have step := dict_update_lookup_not_mem (dict_insert current k0 v0) t k0 hnd.1
        rw [dict_update] at step
        rw [step, dict_insert_lookup_self current k0 v0, hv]
      · rw [if_neg hpk] at h
        have step := ih (dict_insert current k0 v0) hnd.2 h
        rw [dict_update] at step
        exact step

/-! ### Claims -/

/-- C1: For every semantic score breakdown with category scores
`edu`, `exp`, `train`, `overall` in `[0, 1]`, the final semantic score
(the clamped value `final_semantic_score` computed by
`_calculate_semantic_assessment` under the default weights) equals
`clamp(0, 100, (edu*0.35 + exp*0.45 + train*0.15 + overall*0.05) * 100)`;
in particular for `edu = 0.8`, `exp = 0.6`, `train = 0.4`,
`overall = 0.7` the returned final score is `64.5`. -/
theorem semantic_blend_formula :
    (∀ edu exp train overall : ℚ,
      0 ≤ edu → edu ≤ 1 → 0 ≤ exp → exp ≤ 1 →
      0 ≤ train → train ≤ 1 → 0 ≤ overall → overall ≤ 1 →
      final_semantic_score default_semantic_weights edu exp train overall =
        max 0 (min 100
          ((edu * (35/100) + exp * (45/100) + train * (15/100) +
            overall * (5/100)) * 100))) ∧
    calculate_semantic_assessment default_semantic_weights
      { overall_score := 7/10, education_relevance := 4/5,
        experience_relevance := 3/5, training_relevance := 2/5 } =
      .ok { final_score := 129/2 } := by
  constructor
  · intro edu exp train overall _ _ _ _ _ _ _ _
    simp only [final_semantic_score, default_semantic_weights]
  · norm_num [calculate_semantic_assessment, final_semantic_score,
      default_semantic_weights, round1, round_eq]

/-- Witness for C1 at `edu = 0.8`, `exp = 0.6`, `train = 0.4`,
`overall = 0.7`. -/
theorem semantic_blend_formula_witness :
    (0 ≤ (4:ℚ)/5 ∧ (4:ℚ)/5 ≤ 1 ∧ 0 ≤ (3:ℚ)/5 ∧ (3:ℚ)/5 ≤ 1 ∧
     0 ≤ (2:ℚ)/5 ∧ (2:ℚ)/5 ≤ 1 ∧ 0 ≤ (7:ℚ)/10 ∧ (7:ℚ)/10 ≤ 1) ∧
    final_semantic_score default_semantic_weights (4/5) (3/5) (2/5) (7/10) =
      max 0 (min 100
        (((4:ℚ)/5 * (35/100) + (3:ℚ)/5 * (45/100) + (2:ℚ)/5 * (15/100) +
          (7:ℚ)/10 * (5/100)) * 100)) :=
  ⟨⟨by norm_num, by norm_num, by norm_num, by norm_num,
    by norm_num, by norm_num, by norm_num, by norm_num⟩,
   semantic_blend_formula.1 (4/5) (3/5) (2/5) (7/10)
     (by norm_num) (by norm_num) (by norm_num) (by norm_num)
     (by norm_num) (by norm_num) (by norm_num) (by norm_num)⟩

/-- C2 (code bug evidence): when the semantic path raises and the
traditional path succeeds with total `72.0`, the result's
`recommended_score` is `72.0` as claimed, but `assessment_method` comes
out `'traditional'`: the `'traditional_fallback'` value written in the
semantic `except` handler (line 113) is overwritten by the
`recommended_score is None` branch of the traditional path (line 132). -/
theorem fallback_method_clobbered :
    (assess_candidate_enhanced true true true
      (.error "Semantic engine unavailable") (.ok 72)).recommended_score
      = 72 ∧
    (assess_candidate_enhanced true true true
      (.error "Semantic engine unavailable") (.ok 72)).assessment_method
      = "traditional" ∧
    (assess_candidate_enhanced true true true
      (.error "Semantic engine unavailable") (.ok 72)).assessment_method
      ≠ "traditional_fallback" := by
  refine ⟨rfl, rfl, ?_⟩
  intro hc
  rw [show (assess_candidate_enhanced true true true
    (.error "Semantic engine unavailable") (.ok 72)).assessment_method
      = "traditional" from rfl] at hc
  exact absurd hc (by decide)

/-- C3: for L2-normalized vectors of equal dimension (`dotList a a = 1`
states unit squared norm), `calculate_semantic_similarity` equals the
dot product rescaled by `(dot + 1) / 2` and clamped to `[0, 1]`, the
result lies in `[0, 1]`, and self-similarity is exactly `1`. -/
theorem similarity_normalized_pairs (a b : List ℚ)
    (hlen : a.length = b.length)
    (ha : dotList a a = 1) (hb : dotList b b = 1) :
    calculate_semantic_similarity (some a) (some b) =
      max 0 (min 1 ((dotList a b + 1) / 2)) ∧
    0 ≤ calculate_semantic_similarity (some a) (some b) ∧
    calculate_semantic_similarity (some a) (some b) ≤ 1 ∧
    calculate_semantic_similarity (some a) (some a) = 1 := by
  have h1 : npDot (some a) (some b) = .ok (dotList a b) := by
    simp [npDot, hlen]
  have hsim : calculate_semantic_similarity (some a) (some b) =
      max 0 (min 1 ((dotList a b + 1) / 2)) := by
    simp [calculate_semantic_similarity, h1]
  refine ⟨hsim, ?_, ?_, ?_⟩
  · rw [hsim]
    exact le_max_left 0 _
  · rw [hsim]
    exact max_le (by norm_num) (min_le_left _ _)
  · have h2 : npDot (some a) (some a) = .ok (dotList a a) := by
      simp [npDot]
    rw [calculate_semantic_similarity, h2, ha]
    norm_num

/-- Witness for C3 at the unit vector `[1]`. -/
theorem similarity_normalized_pairs_witness :
    ([(1:ℚ)].length = [(1:ℚ)].length ∧ dotList [(1:ℚ)] [1] = 1) ∧
    calculate_semantic_similarity (some [(1:ℚ)]) (some [1]) = 1 := by
  have h : dotList [(1:ℚ)] [1] = 1 := by norm_num [dotList]
  exact ⟨⟨rfl, h⟩, (similarity_normalized_pairs [1] [1] rfl h h).2.2.2⟩

/-- C4: in degraded mode `encode_text` returns, for every text, a
384-dimensional vector derived deterministically from the (16-byte,
not-all-zero) cryptographic hash of the text, padded/truncated to 384
entries and L2-normalized to norm exactly 1; equal texts give
identical vectors. -/
theorem encode_text_degraded_spec (digest : String → List ℕ)
    (text : String) (h16 : (digest text).length = 16)
    (hnz : ∃ b ∈ digest text, b ≠ 0) :
    (encode_text_degraded digest text).length = 384 ∧
    l2NormSq (encode_text_degraded digest text) = 1 ∧
    l2Norm (encode_text_degraded digest text) = 1 ∧
    ∀ t, t = text →
      encode_text_degraded digest t = encode_text_degraded digest text := by
  obtain ⟨b, hb, hb0⟩ := hnz
  have hpad : pad_or_truncate_384 (digest text) =
      digest text ++ List.replicate (384 - (digest text).length) 0 := by
    unfold pad_or_truncate_384
    rw [if_pos (by rw [h16]; norm_num)]
  have hmem : ((b : ℝ)) ∈ natsToReals (pad_or_truncate_384 (digest text)) := by
    apply List.mem_map_of_mem
    rw [hpad]
    exact List.mem_append_left _ hb
  have hpos : 0 < l2NormSq (natsToReals (pad_or_truncate_384 (digest text))) :=
    l2NormSq_pos_of_mem _ _ hmem (Nat.cast_ne_zero.mpr hb0)
  have hn1 : l2NormSq (encode_text_degraded digest text) = 1 := by
    unfold encode_text_degraded
    exact l2NormSq_l2Normalize _ hpos
  refine ⟨?_, hn1, ?_, ?_⟩
  · unfold encode_text_degraded
    rw [l2Normalize_length, natsToReals, List.length_map,
      pad_or_truncate_384_length]
  · unfold l2Norm
    rw [hn1, Real.sqrt_one]
  · intro t ht
    rw [ht]

/-- Witness for C4 at a concrete 16-byte digest with a nonzero byte. -/
theorem encode_text_degraded_spec_witness :
    (((fun _ : String => (1 :: List.replicate 15 0 : List ℕ)) "resume").length
        = 16 ∧
      ∃ b ∈ (fun _ : String => ((1:ℕ) :: List.replicate 15 0)) "resume",
        b ≠ 0) ∧
    l2NormSq (encode_text_degraded
      (fun _ : String => ((1:ℕ) :: List.replicate 15 0)) "resume") = 1 :=
  ⟨⟨by decide, by decide⟩,
   (encode_text_degraded_spec (fun _ : String => ((1:ℕ) :: List.replicate 15 0))
     "resume" (by decide) (by decide)).2.1⟩

/-- C5: if both the semantic and the traditional assessment paths fail
(whether the semantic engine was unavailable or its computation
raised), `assess_candidate_enhanced` still returns a well-formed
result with `recommended_score = 0` (a number), `assessment_method =
'failed'`, and a non-empty `errors` list. -/
theorem both_paths_fail_result (avail : Bool) (e1 e2 : String) :
    (assess_candidate_enhanced true true avail
      (.error e1) (.error e2)).recommended_score = 0 ∧
    (assess_candidate_enhanced true true avail
      (.error e1) (.error e2)).assessment_method = "failed" ∧
    (assess_candidate_enhanced true true avail
      (.error e1) (.error e2)).errors ≠ [] := by
  cases avail <;> simp [assess_candidate_enhanced]

/-- C6: for a candidate whose education, experience, training and
eligibility sequences are all empty and a job with a non-empty title,
the detailed semantic score is computed (total function, no exception)
with a defined low `overall_score` of `0`; and when the traditional
engine succeeds the final `assessment_method` is `'traditional'`, not
`'failed'` — empty candidate data alone does not fail the assessment. -/
theorem empty_candidate_assessment (oracle : String → Option (List ℚ))
    (cand_cache job_cache : List ((String × String) × List ℚ))
    (j : Job) (w : SemanticWeights) (T : ℚ) (hj : j.title ≠ "") :
    (calculate_detailed_semantic_score true oracle cand_cache job_cache
      {} j).overall_score = 0 ∧
    (calculate_detailed_semantic_score true oracle cand_cache job_cache
      {} j).error = some "Failed to generate embeddings" ∧
    (assess_candidate_enhanced true true true
      (calculate_semantic_assessment w
        (calculate_detailed_semantic_score true oracle cand_cache job_cache
          {} j))
      (.ok T)).assessment_method = "traditional" ∧
    (assess_candidate_enhanced true true true
      (calculate_semantic_assessment w
        (calculate_detailed_semantic_score true oracle cand_cache job_cache
          {} j))
      (.ok T)).assessment_method ≠ "failed" ∧
    (assess_candidate_enhanced true true true
      (calculate_semantic_assessment w
        (calculate_detailed_semantic_score true oracle cand_cache job_cache
          {} j))
      (.ok T)).recommended_score = T := by
  refine ⟨rfl, rfl, rfl, ?_, rfl⟩
  intro hc
  rw [show (assess_candidate_enhanced true true true
      (calculate_semantic_assessment w
        (calculate_detailed_semantic_score true oracle cand_cache job_cache
          {} j))
      (.ok T)).assessment_method = "traditional" from rfl] at hc
  exact absurd hc (by decide)

/-- Witness for C6 with a concrete job, oracle and traditional score. -/
theorem empty_candidate_assessment_witness :
    ({ title := "Assistant Professor" } : Job).title ≠ "" ∧
    (assess_candidate_enhanced true true true
      (calculate_semantic_assessment default_semantic_weights
        (calculate_detailed_semantic_score true (fun _ => none) [] []
          {} { title := "Assistant Professor" }))
      (.ok 72)).assessment_method = "traditional" :=
  ⟨by decide,
   (empty_candidate_assessment (fun _ => none) [] []
     { title := "Assistant Professor" } default_semantic_weights 72
     (by decide)).2.2.1⟩

/-- C7: `batch_assess_candidates` returns exactly one result per input
candidate, in input order; an iteration that raises yields a stub
result with `recommended_score = 0`, method `'failed'` and a recorded
error, while every other candidate is still assessed normally. -/
theorem batch_isolated_results (include_semantic avail : Bool)
    (items : List BatchItem) :
    (batch_assess_candidates include_semantic avail items).length =
      items.length ∧
    (∀ (i : ℕ) s t, items[i]? = some (BatchItem.ok s t) →
      (batch_assess_candidates include_semantic avail items)[i]? =
        some (assess_candidate_enhanced include_semantic true avail s t)) ∧
    (∀ (i : ℕ) m, items[i]? = some (BatchItem.raises m) →
      ∃ r : AssessResult,
        (batch_assess_candidates include_semantic avail items)[i]? =
          some r ∧
        r.recommended_score = 0 ∧ r.assessment_method = "failed" ∧
        r.errors ≠ []) := by
  refine ⟨List.length_map _ _, ?_, ?_⟩
  · intro i s t h
    rw [batch_assess_candidates, List.getElem?_map, h]
    rfl
  · intro i m h
    have hr : (batch_assess_candidates include_semantic avail items)[i]? =
        some { recommended_score := 0, assessment_method := "failed",
               errors := ["Assessment failed: " ++ m] } := by
      rw [batch_assess_candidates, List.getElem?_map, h]
      rfl
    exact ⟨_, hr, rfl, rfl, by simp⟩

/-- Witness for C7 on a two-item batch whose first iteration raises. -/
theorem batch_isolated_results_witness :
    ([BatchItem.raises "boom",
      BatchItem.ok (.ok { final_score := 50 }) (.ok 70)][0]? =
        some (BatchItem.raises "boom")) ∧
    ∃ r : AssessResult, (batch_assess_candidates true true
        [BatchItem.raises "boom",
         BatchItem.ok (.ok { final_score := 50 }) (.ok 70)])[0]? = some r ∧
      r.recommended_score = 0 ∧ r.assessment_method = "failed" ∧
      r.errors ≠ [] :=
  ⟨rfl, (batch_isolated_results true true
    [BatchItem.raises "boom",
     BatchItem.ok (.ok { final_score := 50 }) (.ok 70)]).2.2 0 "boom" rfl⟩

/-- C8 counterexample: supplying the engine's own four non-negative
category weights (education, experience, training, bonus — the exact
keys the scorer reads) makes `update_semantic_weights` raise
`ValueError: Missing required weight: skills_relevance`, so the update
is not total on all supplied weight sets. -/
theorem update_weights_missing_skills_key :
    update_semantic_weights default_semantic_weights_dict
      [("education_relevance", 35/100), ("experience_relevance", 45/100),
       ("training_relevance", 15/100), ("overall_quality_bonus", 5/100)] =
      .error "Missing required weight: skills_relevance" := rfl

/-- C8 (amended): when the supplied weight dict contains all four
required keys (`education_relevance`, `experience_relevance`,
`skills_relevance`, `overall_quality_bonus`), the update never raises:
it returns the merged weights together with the out-of-band warning
flag (warn, not fail), and every supplied key's value is what
subsequent scoring will read from the merged dict. -/
theorem update_weights_with_required_keys (current new : List (String × ℚ))
    (hkeys : ∀ k ∈ required_weight_keys, (weights_lookup new k).isSome)
    (hnd : (new.map Prod.fst).Nodup) :
    update_semantic_weights current new =
      .ok (dict_update current new, weight_sum_warning new) ∧
    ∀ k v, weights_lookup new k = some v →
      weights_lookup (dict_update current new) k = some v := by
  constructor
  · rw [update_semantic_weights]
    have hfind : required_weight_keys.find?
        (fun k => (weights_lookup new k).isNone) = none := by
      rw [List.find?_eq_none]
      intro k hk
      have hs := hkeys k hk
      rw [Option.isNone_iff_eq_none]
      intro hnone
      rw [hnone] at hs
      cases hs
    rw [hfind]
  · intro k v h
    exact dict_update_lookup current new k v hnd h

/-- Witness for C8 (amended) with all four required keys supplied and
an out-of-band sum. -/
theorem update_weights_with_required_keys_witness :
    (∀ k ∈ required_weight_keys,
      (weights_lookup
        [("education_relevance", (1:ℚ)), ("experience_relevance", 1),
         ("skills_relevance", 1), ("overall_quality_bonus", 0)] k).isSome) ∧
    (([("education_relevance", (1:ℚ)), ("experience_relevance", 1),
       ("skills_relevance", 1), ("overall_quality_bonus", 0)].map
        Prod.fst).Nodup) ∧
    update_semantic_weights default_semantic_weights_dict
      [("education_relevance", (1:ℚ)), ("experience_relevance", 1),
       ("skills_relevance", 1), ("overall_quality_bonus", 0)] =
      .ok (dict_update default_semantic_weights_dict
        [("education_relevance", (1:ℚ)), ("experience_relevance", 1),
         ("skills_relevance", 1), ("overall_quality_bonus", 0)],
        weight_sum_warning
          [("education_relevance", (1:ℚ)), ("experience_relevance", 1),
           ("skills_relevance", 1), ("overall_quality_bonus", 0)]) :=
  ⟨by decide, by decide,
   (update_weights_with_required_keys default_semantic_weights_dict
     [("education_relevance", (1:ℚ)), ("experience_relevance", 1),
      ("skills_relevance", 1), ("overall_quality_bonus", 0)]
     (by decide) (by decide)).1⟩

/-- C9: `calculate_semantic_similarity` is total over all inputs —
including `None` arguments and mismatched shapes — always returns a
value in `[0, 1]`, and returns exactly `0.0` whenever the internal
dot-product computation raises. -/
theorem similarity_total_bounds (a b : Option (List ℚ)) :
    0 ≤ calculate_semantic_similarity a b ∧
    calculate_semantic_similarity a b ≤ 1 ∧
    ∀ e, npDot a b = .error e → calculate_semantic_similarity a b = 0 := by
  cases h : npDot a b with
  | ok d =>
      rw [calculate_semantic_similarity, h]
      refine ⟨le_max_left 0 _, max_le (by norm_num) (min_le_left _ _), ?_⟩
      intro e he
      exact Except.noConfusion he
  | error e0 =>
      rw [calculate_semantic_similarity, h]
      exact ⟨le_refl 0, by norm_num, fun e _ => rfl⟩

/-- Witness for C9 at a `None` first argument. -/
theorem similarity_total_bounds_witness :
    npDot none (some [(1:ℚ)]) = .error "unsupported operand type" ∧
    calculate_semantic_similarity none (some [(1:ℚ)]) = 0 :=
  ⟨rfl, (similarity_total_bounds none (some [(1:ℚ)])).2.2
    "unsupported operand type" rfl⟩

/-- C10: `is_available` is exactly the dependency-import flag,
independent of whether a model loaded; and whenever it is false,
`encode_job_requirements` and `encode_candidate_profile` return `None`
for every model oracle (so the hash-based pseudo-embedding is never
used for them), and `calculate_detailed_semantic_score` returns all
four scores as `0.0` together with an `'error'` entry. -/
theorem is_available_gates_encoders (s : EngineState)
    (oracle : String → Option (List ℚ))
    (cand_cache job_cache : List ((String × String) × List ℚ))
    (c : Candidate) (j : Job) (h : is_available s = false) :
    is_available s = s.deps_available ∧
    (∀ m : Bool,
      is_available { deps_available := s.deps_available, model_loaded := m }
        = is_available s) ∧
    encode_job_requirements (is_available s) oracle cand_cache job_cache j
      = none ∧
    encode_candidate_profile (is_available s) oracle cand_cache c = none ∧
    (calculate_detailed_semantic_score (is_available s) oracle cand_cache
      job_cache c j).overall_score = 0 ∧
    (calculate_detailed_semantic_score (is_available s) oracle cand_cache
      job_cache c j).education_relevance = 0 ∧
    (calculate_detailed_semantic_score (is_available s) oracle cand_cache
      job_cache c j).experience_relevance = 0 ∧
    (calculate_detailed_semantic_score (is_available s) oracle cand_cache
      job_cache c j).training_relevance = 0 ∧
    (calculate_detailed_semantic_score (is_available s) oracle cand_cache
      job_cache c j).error = some "Semantic engine not available" := by
  refine ⟨rfl, fun m => rfl, ?_, ?_, ?_, ?_, ?_, ?_, ?_⟩ <;> rw [h] <;> rfl

/-- Witness for C10 on an engine whose imports failed while a model is
marked as loaded. -/
theorem is_available_gates_encoders_witness :
    is_available { deps_available := false, model_loaded := true } = false ∧
    encode_candidate_profile
      (is_available { deps_available := false, model_loaded := true })
      (fun _ => some [(1:ℚ)]) [] {} = none :=
  ⟨rfl, (is_available_gates_encoders
    { deps_available := false, model_loaded := true }
    (fun _ => some [(1:ℚ)]) [] [] {} {} rfl).2.2.2.1⟩

end Resu
